import Mathlib

/-!
Shallow embedding of the X11 clipboard layer of golang-design/clipboard
(src/clipboard_linux.c): clipboard_test, clipboard_write with its selection
serving loop, read_data, and clipboard_read.

The X11 server is modelled as an environment record supplying the results of
the Xlib calls the code makes (XOpenDisplay attempts, XInternAtom resolution,
XGetSelectionOwner, XChangeProperty return codes, XGetWindowProperty results,
the incoming event stream).  Each embedded function returns the ordered trace
of the externally visible Xlib calls and syncStatus notifications it performs,
together with its return value.  The serving loop of clipboard_write is an
infinite loop that only ends on a SelectionClear event; it is embedded by
recursion on the (finite prefix of the) event stream, with result `none`
meaning the loop is still blocked waiting for further events.
-/

namespace Clipboard

/-- X11 atoms are interned identifiers, represented as naturals. -/
abbrev Atom := Nat

/-- The X11 constant None (the null atom, also the "no property" marker). -/
def NoneA : Atom := 0

/-- The predefined X11 atom XA_ATOM (value 4), the type used by
clipboard_write for its TARGETS reply. -/
def XA_ATOM : Atom := 4

/-- The fields of an XSelectionRequestEvent that clipboard_write reads. -/
structure XSelectionRequest where
  selection : Atom
  target : Atom
  property : Atom
  requestor : Nat
  time : Nat
deriving Repr, DecidableEq

/-- The fields of an XSelectionEvent (a selection-notify event): the reply
built by clipboard_write, and the event consumed by read_data. -/
structure XSelectionEv where
  requestor : Nat
  selection : Atom
  time : Nat
  target : Atom
  property : Atom
deriving Repr, DecidableEq

/-- The events clipboard_write and clipboard_read can receive via XNextEvent. -/
inductive XEventT where
  | selectionClear
  | selectionNotify (sev : XSelectionEv)
  | selectionRequest (xsr : XSelectionRequest)
  | other (code : Nat)
deriving Repr, DecidableEq

/-- One externally visible step: an Xlib call or a syncStatus notification. -/
inductive XAction where
  | syncStatus (status : Int)
  | createWindow
  | setSelectionOwner (sel : Atom) (w : Nat)
  | changeProperty (requestor : Nat) (prop : Atom) (ty : Atom) (format : Nat)
      (data : List Nat) (nelements : Nat)
  | sendEvent (requestor : Nat) (ev : XSelectionEv)
  | convertSelection (sel target prop : Atom)
  | getWindowProperty (requestor : Nat) (prop : Atom)
  | freeData
  | deleteProperty (requestor : Nat) (prop : Atom)
  | closeDisplay
deriving Repr, DecidableEq

/-- Value of a C `return i` through an `unsigned long` of word width wd:
the integer reduced modulo 2 ^ wd. -/
def ulong (wd : Nat) (i : Int) : Nat := (i % ((2 : Int) ^ wd)).toNat

/-- The bounded XOpenDisplay retry loop shared by clipboard_test,
clipboard_write and clipboard_read: `for (int i = 0; i < 42; i++)` trying
XOpenDisplay each iteration and breaking at the first non-NULL display.
`ok i` tells whether attempt `i` succeeds; the result is the index of the
first successful attempt, if any within the fuel. -/
def openLoop (ok : Nat → Bool) : Nat → Nat → Option Nat
  | _, 0 => none
  | i, fuel + 1 => if ok i then some i else openLoop ok (i + 1) fuel

/-- The whole retry loop: 42 attempts starting at attempt 0. -/
def openDisplay (ok : Nat → Bool) : Option Nat := openLoop ok 0 42

/-- How many XOpenDisplay attempts the retry loop makes. -/
def openAttempts (ok : Nat → Bool) : Nat :=
  match openDisplay ok with
  | some i => i + 1
  | none => 42

/-- clipboard_test: dlopen libX11, retry XOpenDisplay up to 42 times,
return -1 when the library or all attempts fail, else close and return 0. -/
def clipboard_test (libOk : Bool) (ok : Nat → Bool) : Int :=
  if ¬libOk then -1
  else
    match openDisplay ok with
    | none => -1
    | some _ => 0

/-- The C test `(R & 2) == 0` on the int returned by XChangeProperty, in
two's complement: bit 1 (value 2) is clear exactly when r mod 4 < 2. -/
def bit2clear (r : Int) : Bool := decide (r % 4 < 2)

/-- The atoms and per-request XChangeProperty results the serving loop of
clipboard_write works with, fixed before the loop starts. -/
structure ServeCtx where
  sel : Atom
  atomString : Atom
  atomImage : Atom
  targetsAtom : Atom
  target : Atom
  changePropR : XSelectionRequest → Int

/-- The selection-notify reply skeleton clipboard_write builds from a
request: every field of the XSelectionEvent is copied from the
XSelectionRequestEvent. -/
def mkReply (xsr : XSelectionRequest) : XSelectionEv :=
  { requestor := xsr.requestor, selection := xsr.selection, time := xsr.time,
    target := xsr.target, property := xsr.property }

/-- The SelectionRequest case of clipboard_write's event loop: a request for
another selection is dropped; otherwise a reply event is built from the
request, the property is installed for the served type or the TARGETS pair,
an unsupported target turns the reply's property into None, and the reply is
sent whenever the XChangeProperty result has bit 2 clear (always, when no
property change was attempted, since R is initialised to 0). -/
def handleRequest (c : ServeCtx) (buf : List Nat) (n : Nat)
    (xsr : XSelectionRequest) : List XAction :=
  if xsr.selection ≠ c.sel then []
  else if xsr.target = c.atomString ∧ xsr.target = c.target then
    XAction.changeProperty xsr.requestor xsr.property c.atomString 8 buf n ::
      (if bit2clear (c.changePropR xsr) then
        [XAction.sendEvent xsr.requestor (mkReply xsr)] else [])
  else if xsr.target = c.atomImage ∧ xsr.target = c.target then
    XAction.changeProperty xsr.requestor xsr.property c.atomImage 8 buf n ::
      (if bit2clear (c.changePropR xsr) then
        [XAction.sendEvent xsr.requestor (mkReply xsr)] else [])
  else if xsr.target = c.targetsAtom then
    XAction.changeProperty xsr.requestor xsr.property XA_ATOM 32
        [c.atomString, c.atomImage] 2 ::
      (if bit2clear (c.changePropR xsr) then
        [XAction.sendEvent xsr.requestor (mkReply xsr)] else [])
  else
    [XAction.sendEvent xsr.requestor { mkReply xsr with property := NoneA }]

/-- The `for (;;)` serving loop of clipboard_write: at the top of each
iteration, syncStatus 1 is emitted once (guarded by `notified`); then the next
event is taken.  SelectionClear closes the display and returns 0;
SelectionNotify and unknown events are ignored; SelectionRequest is handled by
handleRequest.  Result `none` means the loop exhausted the given events and is
blocked in XNextEvent. -/
def serveLoop (c : ServeCtx) (buf : List Nat) (n : Nat) :
    Bool → List XEventT → List XAction × Option Int
  | notified, [] => ((if notified then [] else [XAction.syncStatus 1]), none)
  | notified, XEventT.selectionClear :: _ =>
    ((if notified then [] else [XAction.syncStatus 1]) ++ [XAction.closeDisplay], some 0)
  | notified, XEventT.selectionNotify _ :: rest =>
    ((if notified then [] else [XAction.syncStatus 1]) ++ (serveLoop c buf n true rest).1,
     (serveLoop c buf n true rest).2)
  | notified, XEventT.selectionRequest xsr :: rest =>
    ((if notified then [] else [XAction.syncStatus 1]) ++ handleRequest c buf n xsr
       ++ (serveLoop c buf n true rest).1,
     (serveLoop c buf n true rest).2)
  | notified, XEventT.other _ :: rest =>
    ((if notified then [] else [XAction.syncStatus 1]) ++ (serveLoop c buf n true rest).1,
     (serveLoop c buf n true rest).2)

/-- The environment of one clipboard_write call: whether dlopen succeeds,
which XOpenDisplay attempts succeed, the window XCreateSimpleWindow returns,
the XInternAtom table, the XGetSelectionOwner answer after the ownership
claim, and the XChangeProperty return codes. -/
structure WriteEnv where
  libOk : Bool
  openOk : Nat → Bool
  w : Nat
  internAtom : String → Bool → Atom
  owner : Atom → Nat
  changePropR : XSelectionRequest → Int

/-- The atoms clipboard_write interns before its loop (onlyIfExists = False
for the fixed names, True for the caller-supplied type). -/
def writeCtx (env : WriteEnv) (typ : String) : ServeCtx :=
  { sel := env.internAtom "CLIPBOARD" false
    atomString := env.internAtom "UTF8_STRING" false
    atomImage := env.internAtom "image/png" false
    targetsAtom := env.internAtom "TARGETS" false
    target := env.internAtom typ true
    changePropR := env.changePropR }

/-- clipboard_write: dlopen, bounded XOpenDisplay retry (emitting status -1 on
exhaustion), window creation, atom interning (status -2 when the caller's type
was never interned), ownership claim and verification (status -3 on a lost
race), then the serving loop.  The first trace component is the action trace,
the second the `int` return value (`none` while the loop is still blocked). -/
def clipboard_write (env : WriteEnv) (typ : String) (buf : List Nat) (n : Nat)
    (events : List XEventT) : List XAction × Option Int :=
  if ¬env.libOk then ([], some (-1))
  else
    match openDisplay env.openOk with
    | none => ([XAction.syncStatus (-1)], some (-1))
    | some _ =>
      if (writeCtx env typ).target = NoneA then
        ([XAction.createWindow, XAction.closeDisplay, XAction.syncStatus (-2)], some (-2))
      else if env.owner (writeCtx env typ).sel ≠ env.w then
        ([XAction.createWindow, XAction.setSelectionOwner (writeCtx env typ).sel env.w,
          XAction.closeDisplay, XAction.syncStatus (-3)], some (-3))
      else
        (XAction.createWindow ::
           XAction.setSelectionOwner (writeCtx env typ).sel env.w ::
           (serveLoop (writeCtx env typ) buf n false events).1,
         (serveLoop (writeCtx env typ) buf n false events).2)

/-- The environment of one read_data call: whether its own dlopen succeeds,
and the XGetWindowProperty outcome — `none` for a non-Success return, or
`some (actual, size, data)` for the actual type atom, the item count and the
property bytes. -/
structure RDEnv where
  libOk : Bool
  getProp : Option (Atom × Nat × List Nat)

/-- read_data: guards that the notify event names a property (not None), the
expected selection and the expected staging property, then fetches the
property; the bytes are copied into a freshly allocated caller buffer only
when the actual stored type equals the requested target and the out-pointer
is non-NULL; the server buffer is freed and the staging property deleted
after the fetch either way; the return value is the fetched size through the
`unsigned long` return type of width wd.  The middle component is what is
stored into *buf (`none` when nothing is written). -/
def read_data (wd : Nat) (env : RDEnv) (sev : XSelectionEv)
    (sel prop target : Atom) (bufNonNull : Bool) :
    List XAction × Option (List Nat) × Nat :=
  if ¬env.libOk then ([], none, ulong wd (-1))
  else if sev.property = NoneA ∨ sev.selection ≠ sel ∨ sev.property ≠ prop then
    ([], none, 0)
  else
    match env.getProp with
    | none => ([XAction.getWindowProperty sev.requestor sev.property], none, 0)
    | some (actual, size, data) =>
      ([XAction.getWindowProperty sev.requestor sev.property, XAction.freeData,
        XAction.deleteProperty sev.requestor sev.property],
       (if actual = target ∧ bufNonNull then some (data.take size) else none),
       size % 2 ^ wd)

/-- The environment of one clipboard_read call. -/
structure ReadEnv where
  libOk : Bool
  openOk : Nat → Bool
  w : Nat
  internAtom : String → Bool → Atom
  events : List XEventT
  rd : RDEnv

/-- The wait loop of clipboard_read: discard events until the first
selection-notify, whose XSelectionEvent payload is returned. -/
def firstNotify : List XEventT → Option XSelectionEv
  | [] => none
  | XEventT.selectionNotify sev :: _ => some sev
  | _ :: rest => firstNotify rest

/-- clipboard_read: dlopen, bounded XOpenDisplay retry, window creation, atom
interning (-2 through unsigned long when the type was never interned),
XConvertSelection into the private staging property, blocking wait for a
selection-notify, then read_data and teardown.  The result is `none` when the
wait loop never sees a selection-notify, else the pair of what was stored in
*buf and the `unsigned long` return value. -/
def clipboard_read (wd : Nat) (env : ReadEnv) (typ : String) (bufNonNull : Bool) :
    List XAction × Option (Option (List Nat) × Nat) :=
  if ¬env.libOk then ([], some (none, ulong wd (-1)))
  else
    match openDisplay env.openOk with
    | none => ([], some (none, ulong wd (-1)))
    | some _ =>
      if env.internAtom typ true = NoneA then
        ([XAction.createWindow, XAction.closeDisplay], some (none, ulong wd (-2)))
      else
        match firstNotify env.events with
        | none =>
          ([XAction.createWindow,
            XAction.convertSelection (env.internAtom "CLIPBOARD" false)
              (env.internAtom typ true) (env.internAtom "GOLANG_DESIGN_DATA" false)],
           none)
        | some sev =>
          (XAction.createWindow ::
             XAction.convertSelection (env.internAtom "CLIPBOARD" false)
               (env.internAtom typ true) (env.internAtom "GOLANG_DESIGN_DATA" false) ::
             (read_data wd env.rd sev (env.internAtom "CLIPBOARD" false)
               (env.internAtom "GOLANG_DESIGN_DATA" false)
               (env.internAtom typ true) bufNonNull).1
             ++ [XAction.closeDisplay],
           some ((read_data wd env.rd sev (env.internAtom "CLIPBOARD" false)
                    (env.internAtom "GOLANG_DESIGN_DATA" false)
                    (env.internAtom typ true) bufNonNull).2.1,
                 (read_data wd env.rd sev (env.internAtom "CLIPBOARD" false)
                    (env.internAtom "GOLANG_DESIGN_DATA" false)
                    (env.internAtom typ true) bufNonNull).2.2))

/-- Whether an action is a selection-notify reply (XSendEvent). -/
def isSend : XAction → Bool
  | XAction.sendEvent _ _ => true
  | _ => false

/-- Number of selection-notify replies in a trace. -/
def sendCount (t : List XAction) : Nat := t.countP isSend

/-- Whether an action is a syncStatus notification. -/
def isSync : XAction → Bool
  | XAction.syncStatus _ => true
  | _ => false

/-- Number of syncStatus notifications in a trace. -/
def syncCount (t : List XAction) : Nat := t.countP isSync

/-- Whether an event is a selection-request naming the given selection. -/
def isReqFor (sel : Atom) : XEventT → Bool
  | XEventT.selectionRequest xsr => xsr.selection = sel
  | _ => false

/-- Number of selection-requests for the given selection in an event list. -/
def reqCount (sel : Atom) (evs : List XEventT) : Nat := evs.countP (isReqFor sel)

/-- Whether an event is a selection-request (for any selection). -/
def isReq : XEventT → Bool
  | XEventT.selectionRequest _ => true
  | _ => false

/-- The prefix of the event stream the serving loop actually reads: everything
up to and including the first SelectionClear, or the whole stream when none
occurs (the loop stays blocked after it). -/
def consumedEvents : List XEventT → List XEventT
  | [] => []
  | XEventT.selectionClear :: _ => [XEventT.selectionClear]
  | e :: rest => e :: consumedEvents rest

/-! Basic lemmas about the retry loop and the serving loop. -/

theorem openLoop_none_iff (ok : Nat → Bool) :
    ∀ fuel i, openLoop ok i fuel = none ↔ ∀ j, j < fuel → ok (i + j) = false := by
  intro fuel
  induction fuel with
  | zero => intro i; simp [openLoop]
  | succ f ih =>
    intro i
    unfold openLoop
    by_cases h : ok i = true
    · rw [if_pos h]
      constructor
      · intro hc; exact Option.noConfusion hc
      · intro hall
        have h0 := hall 0 (Nat.succ_pos f)
        rw [Nat.add_zero] at h0
        rw [h0] at h
        exact Bool.noConfusion h
    · rw [if_neg h, ih (i + 1)]
      constructor
      · intro hall j hj
        cases j with
        | zero =>
          rw [Nat.add_zero]
          exact Bool.eq_false_iff.mpr h
        | succ k =>
          have hk := hall k (Nat.lt_of_succ_lt_succ hj)
          have he : i + 1 + k = i + (k + 1) := by omega
          rwa [he] at hk
      · intro hall j hj
        have hk := hall (j + 1) (by omega)
        have he : i + (j + 1) = i + 1 + j := by omega
        rwa [he] at hk

theorem openDisplay_none_iff (ok : Nat → Bool) :
    openDisplay ok = none ↔ ∀ i, i < 42 → ok i = false := by
  have h := openLoop_none_iff ok 42 0
  simpa [openDisplay] using h

theorem openLoop_some_lt (ok : Nat → Bool) :
    ∀ fuel i k, openLoop ok i fuel = some k → k < i + fuel := by
  intro fuel
  induction fuel with
  | zero => intro i k h; simp [openLoop] at h
  | succ f ih =>
    intro i k h
    unfold openLoop at h
    by_cases hk : ok i
    · simp only [hk, if_true, Option.some.injEq] at h
      omega
    · simp only [hk, if_false] at h
      have := ih (i + 1) k h
      omega

theorem openAttempts_le (ok : Nat → Bool) : openAttempts ok ≤ 42 := by
  rcases h : openDisplay ok with _ | i
  · simp [openAttempts, h]
  · have hlt := openLoop_some_lt ok 42 0 i h
    simp only [openAttempts, h]
    omega

theorem handleRequest_syncCount (c : ServeCtx) (buf : List Nat) (n : Nat)
    (xsr : XSelectionRequest) : syncCount (handleRequest c buf n xsr) = 0 := by
  unfold handleRequest
  split
  · rfl
  · split
    · split <;> simp [syncCount, isSync]
    · split
      · split <;> simp [syncCount, isSync]
      · split
        · split <;> simp [syncCount, isSync]
        · simp [syncCount, isSync]

theorem handleRequest_sendCount (c : ServeCtx) (buf : List Nat) (n : Nat)
    (xsr : XSelectionRequest) (hR : bit2clear (c.changePropR xsr) = true) :
    sendCount (handleRequest c buf n xsr) = if xsr.selection = c.sel then 1 else 0 := by
  unfold handleRequest
  by_cases h1 : xsr.selection = c.sel
  · rw [if_neg (not_not_intro h1), if_pos h1]
    split
    · simp [sendCount, isSend, hR]
    · split
      · simp [sendCount, isSend, hR]
      · split
        · simp [sendCount, isSend, hR]
        · simp [sendCount, isSend]
  · rw [if_pos h1, if_neg h1]
    rfl

theorem serveLoop_false_eq (c : ServeCtx) (buf : List Nat) (n : Nat)
    (evs : List XEventT) :
    serveLoop c buf n false evs =
      (XAction.syncStatus 1 :: (serveLoop c buf n true evs).1,
       (serveLoop c buf n true evs).2) := by
  cases evs with
  | nil => rfl
  | cons e rest => cases e <;> rfl

theorem serveLoop_true_syncCount (c : ServeCtx) (buf : List Nat) (n : Nat) :
    ∀ evs, syncCount (serveLoop c buf n true evs).1 = 0 := by
  intro evs
  induction evs with
  | nil => rfl
  | cons e rest ih =>
    cases e with
    | selectionClear => rfl
    | selectionNotify sev => simpa [serveLoop] using ih
    | selectionRequest xsr =>
      have h := handleRequest_syncCount c buf n xsr
      unfold syncCount at h ih ⊢
      simp [serveLoop, List.countP_append, h, ih]
    | other k => simpa [serveLoop] using ih

theorem serveLoop_true_sendCount (c : ServeCtx) (buf : List Nat) (n : Nat)
    (hR : ∀ xsr, bit2clear (c.changePropR xsr) = true) :
    ∀ evs, sendCount (serveLoop c buf n true evs).1 =
        reqCount c.sel (consumedEvents evs) := by
  intro evs
  induction evs with
  | nil => rfl
  | cons e rest ih =>
    cases e with
    | selectionClear =>
      simp [serveLoop, consumedEvents, reqCount, sendCount, List.countP_cons,
        isReqFor, isSend]
    | selectionNotify sev =>
      simpa [serveLoop, consumedEvents, reqCount, List.countP_cons, isReqFor]
        using ih
    | selectionRequest xsr =>
      have h2 := handleRequest_sendCount c buf n xsr (hR xsr)
      by_cases hs : xsr.selection = c.sel
      · rw [if_pos hs] at h2
        unfold sendCount at h2 ih ⊢
        simp [serveLoop, consumedEvents, reqCount, List.countP_append,
          List.countP_cons, isReqFor, hs, h2, ih, Nat.add_comm]
      · rw [if_neg hs] at h2
        unfold sendCount at h2 ih ⊢
        simp [serveLoop, consumedEvents, reqCount, List.countP_append,
          List.countP_cons, isReqFor, hs, h2, ih]
    | other k =>
      simpa [serveLoop, consumedEvents, reqCount, List.countP_cons, isReqFor]
        using ih

theorem serveLoop_sendCount (c : ServeCtx) (buf : List Nat) (n : Nat)
    (hR : ∀ xsr, bit2clear (c.changePropR xsr) = true) :
    ∀ evs notified,
      sendCount (serveLoop c buf n notified evs).1 =
        reqCount c.sel (consumedEvents evs) := by
  intro evs notified
  cases notified
  · rw [serveLoop_false_eq]
    have h := serveLoop_true_sendCount c buf n hR evs
    unfold sendCount at h ⊢
    simpa [List.countP_cons, isSend] using h
  · exact serveLoop_true_sendCount c buf n hR evs

theorem serveLoop_result (c : ServeCtx) (buf : List Nat) (n : Nat) :
    ∀ evs notified,
      (serveLoop c buf n notified evs).2 = some 0 ∨
      (serveLoop c buf n notified evs).2 = none := by
  intro evs
  induction evs with
  | nil => intro notified; right; rfl
  | cons e rest ih =>
    intro notified
    cases e with
    | selectionClear => left; rfl
    | selectionNotify sev => simpa [serveLoop] using ih true
    | selectionRequest xsr => simpa [serveLoop] using ih true
    | other k => simpa [serveLoop] using ih true

/-! Concrete environments used to evaluate the model on closed inputs. -/

/-- A concrete serving context: selection 1, UTF8_STRING 2, image/png 3,
TARGETS 4, serving the text type, XChangeProperty returning 1 (as Xlib does). -/
def cW : ServeCtx :=
  { sel := 1, atomString := 2, atomImage := 3, targetsAtom := 4, target := 2,
    changePropR := fun _ => 1 }

/-- A request for the served selection and the served text target. -/
def rqMatch : XSelectionRequest :=
  { selection := 1, target := 2, property := 5, requestor := 7, time := 11 }

/-- A request naming a different selection than the served one. -/
def rqOther : XSelectionRequest :=
  { selection := 9, target := 2, property := 5, requestor := 7, time := 11 }

/-- A request for the served selection with an unsupported target. -/
def rqUnsupported : XSelectionRequest :=
  { selection := 1, target := 8, property := 5, requestor := 7, time := 11 }

/-- A request for the served selection asking for TARGETS. -/
def rqTargets : XSelectionRequest :=
  { selection := 1, target := 4, property := 5, requestor := 7, time := 11 }

/-- A concrete clipboard_write environment where everything succeeds. -/
def envW : WriteEnv :=
  { libOk := true
    openOk := fun _ => true
    w := 7
    internAtom := fun s onlyIfExists =>
      if s = "CLIPBOARD" then 1
      else if s = "UTF8_STRING" then 2
      else if s = "image/png" then 3
      else if s = "TARGETS" then 4
      else if onlyIfExists then 0 else 6
    owner := fun _ => 7
    changePropR := fun _ => 1 }

/-- Like envW but the ownership re-query reports another window. -/
def envW3 : WriteEnv :=
  { envW with owner := fun _ => 8 }

/-! The claims. -/

/-- C1 counterexample: during the serving loop of clipboard_write, a
selection-request event whose selection field names a different selection
than the served one is dropped without any selection-notify reply, so it is
false that every incoming selection-request event receives exactly one
reply. -/
theorem C1_counterexample :
    isReq (XEventT.selectionRequest rqOther) = true ∧
    sendCount (serveLoop cW [104, 105] 2 true
        [XEventT.selectionRequest rqOther]).1 = 0 := by
  constructor <;> rfl

/-- C1 (amended): during the serving loop of clipboard_write, assuming every
XChangeProperty call reports a result with bit 2 clear (as Xlib always does),
every selection-request event the loop consumes that names the served
clipboard selection receives exactly one selection-notify reply, and a
consumed request for the served selection whose target is neither the served
type nor TARGETS is answered with a single reply whose property field is the
None marker; but a request naming a different selection is dropped with no
reply at all. -/
theorem C1_every_request_replied (c : ServeCtx) (buf : List Nat) (n : Nat)
    (hR : ∀ xsr, bit2clear (c.changePropR xsr) = true) :
    (∀ evs notified,
      sendCount (serveLoop c buf n notified evs).1 =
        reqCount c.sel (consumedEvents evs))
    ∧ (∀ xsr : XSelectionRequest, xsr.selection = c.sel →
        xsr.target ≠ c.target → xsr.target ≠ c.targetsAtom →
        handleRequest c buf n xsr =
          [XAction.sendEvent xsr.requestor { mkReply xsr with property := NoneA }])
    ∧ (∀ xsr : XSelectionRequest, xsr.selection ≠ c.sel →
        handleRequest c buf n xsr = []) := by
  refine ⟨serveLoop_sendCount c buf n hR, ?_, ?_⟩
  · intro xsr h1 h2 h3
    unfold handleRequest
    rw [if_neg (not_not_intro h1)]
    rw [if_neg (by rintro ⟨ha, hb⟩; exact h2 hb)]
    rw [if_neg (by rintro ⟨ha, hb⟩; exact h2 hb)]
    rw [if_neg h3]
  · intro xsr h1
    unfold handleRequest
    rw [if_pos h1]

/-- C1 witness: the amended reply-count identity evaluated on a concrete
context and event list. -/
theorem C1_every_request_replied_witness :
    sendCount (serveLoop cW [104] 1 true
      [XEventT.selectionRequest rqMatch, XEventT.other 5,
       XEventT.selectionRequest rqUnsupported]).1 =
      reqCount cW.sel (consumedEvents
        [XEventT.selectionRequest rqMatch, XEventT.other 5,
         XEventT.selectionRequest rqUnsupported]) :=
  (C1_every_request_replied cW [104] 1 (fun _ => rfl)).1
    [XEventT.selectionRequest rqMatch, XEventT.other 5,
     XEventT.selectionRequest rqUnsupported] true

/-- C7: a selection-request for the reflective TARGETS type is answered by
installing exactly the two supported type identifiers (the UTF-8 text atom
and the PNG image atom) as a 32-bit-unit array of two elements of type
XA_ATOM into the requestor's property, whatever single type the current
write is serving. -/
theorem C7_targets_reply (c : ServeCtx) (buf : List Nat) (n : Nat)
    (xsr : XSelectionRequest)
    (hsel : xsr.selection = c.sel) (htgt : xsr.target = c.targetsAtom)
    (hne : c.target ≠ c.targetsAtom) :
    handleRequest c buf n xsr =
      XAction.changeProperty xsr.requestor xsr.property XA_ATOM 32
          [c.atomString, c.atomImage] 2 ::
        (if bit2clear (c.changePropR xsr) then
          [XAction.sendEvent xsr.requestor (mkReply xsr)] else []) := by
  unfold handleRequest
  rw [if_neg (not_not_intro hsel)]
  rw [if_neg (by rintro ⟨ha, hb⟩; exact hne (hb.symm.trans htgt))]
  rw [if_neg (by rintro ⟨ha, hb⟩; exact hne (hb.symm.trans htgt))]
  rw [if_pos htgt]

/-- C7 witness: the TARGETS reply evaluated on a concrete context serving the
text type. -/
theorem C7_targets_reply_witness :
    handleRequest cW [9] 1 rqTargets =
      XAction.changeProperty rqTargets.requestor rqTargets.property XA_ATOM 32
          [cW.atomString, cW.atomImage] 2 ::
        (if bit2clear (cW.changePropR rqTargets) then
          [XAction.sendEvent rqTargets.requestor (mkReply rqTargets)] else []) :=
  C7_targets_reply cW [9] 1 rqTargets rfl rfl (by decide)

/-- C8: when the serving loop of clipboard_write receives a selection-cleared
event, it closes the display connection and returns 0, the clean-loss success
code, not an error code. -/
theorem C8_clean_loss (c : ServeCtx) (buf : List Nat) (n : Nat)
    (rest : List XEventT) :
    serveLoop c buf n true (XEventT.selectionClear :: rest) =
      ([XAction.closeDisplay], some 0) := rfl

/-- C2: every clipboard_write that reaches the serving state emits the success
status 1 exactly once, as the very first action of the serving loop (on its
first iteration, before any event is consumed), so before any paste request
can be served; no further syncStatus notification follows in the serving
trace. -/
theorem C2_ready_emitted_once (env : WriteEnv) (typ : String) (buf : List Nat)
    (n : Nat) (evs : List XEventT)
    (hlib : env.libOk = true)
    (i : Nat) (hopen : openDisplay env.openOk = some i)
    (htyp : (writeCtx env typ).target ≠ NoneA)
    (hown : env.owner (writeCtx env typ).sel = env.w) :
    ∃ t, (clipboard_write env typ buf n evs).1 =
        XAction.createWindow ::
          XAction.setSelectionOwner (writeCtx env typ).sel env.w ::
          XAction.syncStatus 1 :: t
      ∧ syncCount t = 0 := by
  refine ⟨(serveLoop (writeCtx env typ) buf n true evs).1, ?_,
    serveLoop_true_syncCount (writeCtx env typ) buf n evs⟩
  unfold clipboard_write
  rw [hlib, hopen, if_neg (not_not_intro rfl)]
  dsimp only
  rw [if_neg htyp, if_neg (not_not_intro hown), serveLoop_false_eq]

/-- C2 witness: the ready status emission evaluated on a concrete successful
write serving a one-byte text payload. -/
theorem C2_ready_emitted_once_witness :
    ∃ t, (clipboard_write envW "UTF8_STRING" [104] 1 [XEventT.selectionClear]).1 =
        XAction.createWindow ::
          XAction.setSelectionOwner (writeCtx envW "UTF8_STRING").sel envW.w ::
          XAction.syncStatus 1 :: t
      ∧ syncCount t = 0 :=
  C2_ready_emitted_once envW "UTF8_STRING" [104] 1 [XEventT.selectionClear]
    rfl 0 rfl (by decide) rfl

/-- C3: after claiming selection ownership, clipboard_write re-queries the
current owner; when the owner is not this operation's window it emits the
status -3, closes the connection and returns -3, without ever reaching the
serving loop (no ready status 1 appears in the trace). -/
theorem C3_ownership_denied (env : WriteEnv) (typ : String) (buf : List Nat)
    (n : Nat) (evs : List XEventT)
    (hlib : env.libOk = true)
    (i : Nat) (hopen : openDisplay env.openOk = some i)
    (htyp : (writeCtx env typ).target ≠ NoneA)
    (hown : env.owner (writeCtx env typ).sel ≠ env.w) :
    clipboard_write env typ buf n evs =
      ([XAction.createWindow,
        XAction.setSelectionOwner (writeCtx env typ).sel env.w,
        XAction.closeDisplay, XAction.syncStatus (-3)], some (-3))
    ∧ XAction.syncStatus 1 ∉ (clipboard_write env typ buf n evs).1 := by
  have hmain : clipboard_write env typ buf n evs =
      ([XAction.createWindow,
        XAction.setSelectionOwner (writeCtx env typ).sel env.w,
        XAction.closeDisplay, XAction.syncStatus (-3)], some (-3)) := by
    unfold clipboard_write
    rw [hlib, hopen, if_neg (not_not_intro rfl)]
    dsimp only
    rw [if_neg htyp, if_pos hown]
  refine ⟨hmain, ?_⟩
  rw [hmain]
  simp

/-- C3 witness: the ownership-denied exit evaluated on a concrete environment
where the re-query reports window 8 while ours is window 7. -/
theorem C3_ownership_denied_witness :
    clipboard_write envW3 "UTF8_STRING" [104] 1 [] =
      ([XAction.createWindow,
        XAction.setSelectionOwner (writeCtx envW3 "UTF8_STRING").sel envW3.w,
        XAction.closeDisplay, XAction.syncStatus (-3)], some (-3))
    ∧ XAction.syncStatus 1 ∉ (clipboard_write envW3 "UTF8_STRING" [104] 1 []).1 :=
  C3_ownership_denied envW3 "UTF8_STRING" [104] 1 [] rfl 0 rfl (by decide)
    (by decide)

/-- C6: a clipboard_write whose type string was never interned (XInternAtom
with onlyIfExists returns None) closes the connection, emits status -2 and
returns -2, and its trace contains no ownership claim and no ready status. -/
theorem C6_invalid_type (env : WriteEnv) (typ : String) (buf : List Nat)
    (n : Nat) (evs : List XEventT)
    (hlib : env.libOk = true)
    (i : Nat) (hopen : openDisplay env.openOk = some i)
    (htyp : env.internAtom typ true = NoneA) :
    clipboard_write env typ buf n evs =
      ([XAction.createWindow, XAction.closeDisplay, XAction.syncStatus (-2)],
       some (-2))
    ∧ (∀ s wi, XAction.setSelectionOwner s wi ∉ (clipboard_write env typ buf n evs).1)
    ∧ XAction.syncStatus 1 ∉ (clipboard_write env typ buf n evs).1 := by
  have htyp2 : (writeCtx env typ).target = NoneA := htyp
  have hmain : clipboard_write env typ buf n evs =
      ([XAction.createWindow, XAction.closeDisplay, XAction.syncStatus (-2)],
       some (-2)) := by
    unfold clipboard_write
    rw [hlib, hopen, if_neg (not_not_intro rfl)]
    dsimp only
    rw [if_pos htyp2]
  refine ⟨hmain, ?_, ?_⟩
  · intro s wi
    rw [hmain]
    simp
  · rw [hmain]
    simp

/-- C6 witness: the invalid-type exit evaluated on a type string the concrete
environment never interned. -/
theorem C6_invalid_type_witness :
    clipboard_write envW "bogus/type" [104] 1 [] =
      ([XAction.createWindow, XAction.closeDisplay, XAction.syncStatus (-2)],
       some (-2))
    ∧ (∀ s wi,
        XAction.setSelectionOwner s wi ∉ (clipboard_write envW "bogus/type" [104] 1 []).1)
    ∧ XAction.syncStatus 1 ∉ (clipboard_write envW "bogus/type" [104] 1 []).1 :=
  C6_invalid_type envW "bogus/type" [104] 1 [] rfl 0 rfl (by decide)

/-- A concrete XSelectionEvent whose property and selection match the staging
expectations of a read (selection 1, staging property 6). -/
def sevOk : XSelectionEv :=
  { requestor := 7, selection := 1, time := 0, target := 2, property := 6 }

/-- A concrete read_data environment whose property fetch yields four bytes
of actual type 3. -/
def envRD3 : RDEnv := { libOk := true, getProp := some (3, 4, [10, 11, 12, 13]) }

/-- A concrete read_data environment whose property fetch yields four bytes
of actual type 2. -/
def envRD2 : RDEnv := { libOk := true, getProp := some (2, 4, [10, 11, 12, 13]) }

/-- C4: when the staging property holds data whose actual stored type differs
from the requested target type, read_data copies nothing into the caller's
buffer: the out-buffer is left untouched (an empty result), no byte of the
mismatched data reaches the caller. -/
theorem C4_type_mismatch_no_copy (wd : Nat) (env : RDEnv) (sev : XSelectionEv)
    (sel prop target : Atom) (b : Bool)
    (actual : Atom) (size : Nat) (data : List Nat)
    (hget : env.getProp = some (actual, size, data))
    (hmm : actual ≠ target) :
    (read_data wd env sev sel prop target b).2.1 = none := by
  unfold read_data
  split
  · rfl
  · split
    · rfl
    · rw [hget]
      dsimp only
      rw [if_neg (by rintro ⟨h1, h2⟩; exact hmm h1)]

/-- C4 witness: a concrete read requesting type 2 against a property holding
type 3 copies nothing. -/
theorem C4_type_mismatch_no_copy_witness :
    (read_data 64 envRD3 sevOk 1 6 2 true).2.1 = none :=
  C4_type_mismatch_no_copy 64 envRD3 sevOk 1 6 2 true 3 4 [10, 11, 12, 13]
    rfl (by decide)

/-- C5: whenever read_data actually fetches the staging property (the notify
event names a property, the expected selection and the expected staging
property, and XGetWindowProperty succeeds, which are exactly the invocations
in which a server-held temporary buffer exists), the trace frees the server
buffer (XFree) and deletes the staging property (XDeleteProperty) before the
function returns, for every requested target type, so for both outcomes of
the type match. -/
theorem C5_always_cleans_up (wd : Nat) (env : RDEnv) (sev : XSelectionEv)
    (sel prop target : Atom) (b : Bool)
    (hlib : env.libOk = true)
    (hP : sev.property ≠ NoneA) (hS : sev.selection = sel)
    (hPP : sev.property = prop)
    (g : Atom × Nat × List Nat) (hget : env.getProp = some g) :
    XAction.freeData ∈ (read_data wd env sev sel prop target b).1 ∧
    XAction.deleteProperty sev.requestor sev.property ∈
      (read_data wd env sev sel prop target b).1 := by
  obtain ⟨actual, size, data⟩ := g
  have hmain : (read_data wd env sev sel prop target b).1 =
      [XAction.getWindowProperty sev.requestor sev.property, XAction.freeData,
       XAction.deleteProperty sev.requestor sev.property] := by
    unfold read_data
    rw [hlib, if_neg (not_not_intro rfl)]
    rw [if_neg (by rintro (h | h | h); exacts [hP h, h hS, h hPP])]
    rw [hget]
  rw [hmain]
  refine ⟨?_, ?_⟩ <;> simp

/-- C5 witness: the cleanup actions on a concrete fetch whose actual type 2
equals the requested target (the matching outcome); the mismatching outcome
is witnessed by the same theorem at target 3 in its universal binder. -/
theorem C5_always_cleans_up_witness :
    XAction.freeData ∈ (read_data 64 envRD2 sevOk 1 6 2 true).1 ∧
    XAction.deleteProperty sevOk.requestor sevOk.property ∈
      (read_data 64 envRD2 sevOk 1 6 2 true).1 :=
  C5_always_cleans_up 64 envRD2 sevOk 1 6 2 true rfl (by decide) rfl rfl
    (2, 4, [10, 11, 12, 13]) rfl

theorem ulong_neg_one (wd : Nat) : ulong wd (-1) = 2 ^ wd - 1 := by
  unfold ulong
  have hp : (0 : Int) < 2 ^ wd := pow_pos (by norm_num) wd
  have e1 : (-1 : Int) = ((2 : Int) ^ wd - 1) + (-1) * (2 : Int) ^ wd := by ring
  rw [e1, Int.add_mul_emod_self]
  rw [Int.emod_eq_of_lt (by linarith) (by linarith)]
  have h1 : (1 : Nat) ≤ 2 ^ wd := Nat.one_le_two_pow
  have e2 : (((2 ^ wd - 1 : Nat)) : Int) = (2 : Int) ^ wd - 1 := by
    rw [Nat.cast_sub h1]
    push_cast
    ring
  rw [← e2, Int.toNat_natCast]

theorem ulong_neg_two (wd : Nat) (hw : 1 ≤ wd) : ulong wd (-2) = 2 ^ wd - 2 := by
  unfold ulong
  have h2n : (2 : Nat) ≤ 2 ^ wd := by
    calc (2 : Nat) = 2 ^ 1 := by norm_num
    _ ≤ 2 ^ wd := Nat.pow_le_pow_right (by norm_num) hw
  have h2i : (2 : Int) ≤ 2 ^ wd := by exact_mod_cast h2n
  have e1 : (-2 : Int) = ((2 : Int) ^ wd - 2) + (-1) * (2 : Int) ^ wd := by ring
  rw [e1, Int.add_mul_emod_self]
  rw [Int.emod_eq_of_lt (by linarith) (by linarith)]
  have e2 : (((2 ^ wd - 2 : Nat)) : Int) = (2 : Int) ^ wd - 2 := by
    rw [Nat.cast_sub h2n]
    push_cast
    ring
  rw [← e2, Int.toNat_natCast]

/-- Like envW's environment but with every XOpenDisplay attempt failing. -/
def envWF : WriteEnv := { envW with openOk := fun _ => false }

/-- A concrete clipboard_read environment with every XOpenDisplay attempt
failing. -/
def envRF : ReadEnv :=
  { libOk := true, openOk := fun _ => false, w := 7,
    internAtom := envW.internAtom, events := [], rd := envRD2 }

/-- A concrete clipboard_read environment where the display opens at once. -/
def envR2 : ReadEnv := { envRF with openOk := fun _ => true }

/-- A read_data environment whose fetched property has 2 ^ 64 - 1 items. -/
def envRDBig : RDEnv := { libOk := true, getProp := some (2, 2 ^ 64 - 1, []) }

/-- C9: clipboard_test, clipboard_write and clipboard_read each run the same
bounded retry loop: at most 42 XOpenDisplay attempts with nothing between
them; given the library loads, the operation takes its Unavailable exit
exactly when all 42 attempts fail — clipboard_test returns -1, clipboard_write
emits status -1 as its only action and returns -1, and clipboard_read returns
-1 through its unsigned long type while doing nothing else. -/
theorem C9_bounded_retry (ok : Nat → Bool) (wenv : WriteEnv) (renv : ReadEnv)
    (wd : Nat) (typ typr : String) (buf : List Nat) (n : Nat)
    (evs : List XEventT) (b : Bool)
    (hwl : wenv.libOk = true) (hrl : renv.libOk = true) :
    openAttempts ok ≤ 42
    ∧ (clipboard_test true ok = -1 ↔ ∀ i, i < 42 → ok i = false)
    ∧ ((clipboard_write wenv typ buf n evs).2 = some (-1) ↔
        ∀ i, i < 42 → wenv.openOk i = false)
    ∧ ((∀ i, i < 42 → wenv.openOk i = false) →
        clipboard_write wenv typ buf n evs = ([XAction.syncStatus (-1)], some (-1)))
    ∧ (clipboard_read wd renv typr b = ([], some (none, ulong wd (-1))) ↔
        ∀ i, i < 42 → renv.openOk i = false) := by
  refine ⟨openAttempts_le ok, ?_, ?_, ?_, ?_⟩
  · unfold clipboard_test
    rw [if_neg (not_not_intro rfl)]
    rcases h : openDisplay ok with _ | i
    · dsimp only
      exact ⟨fun _ => (openDisplay_none_iff ok).mp h, fun _ => rfl⟩
    · dsimp only
      constructor
      · intro hc; exact absurd hc (by decide)
      · intro hall
        rw [(openDisplay_none_iff ok).mpr hall] at h
        exact Option.noConfusion h
  · rcases h : openDisplay wenv.openOk with _ | i
    · have hmain : clipboard_write wenv typ buf n evs =
          ([XAction.syncStatus (-1)], some (-1)) := by
        unfold clipboard_write
        rw [hwl, h, if_neg (not_not_intro rfl)]
      rw [hmain]
      exact ⟨fun _ => (openDisplay_none_iff _).mp h, fun _ => rfl⟩
    · constructor
      · intro hc
        exfalso
        unfold clipboard_write at hc
        rw [hwl, h, if_neg (not_not_intro rfl)] at hc
        dsimp only at hc
        split at hc
        · simp at hc
        · split at hc
          · simp at hc
          · rcases serveLoop_result (writeCtx wenv typ) buf n evs false with hr | hr
            · rw [hr] at hc
              simp at hc
            · rw [hr] at hc
              simp at hc
      · intro hall
        exfalso
        rw [(openDisplay_none_iff _).mpr hall] at h
        exact Option.noConfusion h
  · intro hall
    unfold clipboard_write
    rw [hwl, (openDisplay_none_iff _).mpr hall, if_neg (not_not_intro rfl)]
  · rcases h : openDisplay renv.openOk with _ | i
    · have hmain : clipboard_read wd renv typr b =
          ([], some (none, ulong wd (-1))) := by
        unfold clipboard_read
        rw [hrl, h, if_neg (not_not_intro rfl)]
      rw [hmain]
      exact ⟨fun _ => (openDisplay_none_iff _).mp h, fun _ => rfl⟩
    · constructor
      · intro hc
        exfalso
        unfold clipboard_read at hc
        rw [hrl, h, if_neg (not_not_intro rfl)] at hc
        dsimp only at hc
        split at hc
        · simp at hc
        · rcases hf : firstNotify renv.events with _ | sev
          · rw [hf] at hc
            dsimp only at hc
            simp at hc
          · rw [hf] at hc
            dsimp only at hc
            simp at hc
      · intro hall
        exfalso
        rw [(openDisplay_none_iff _).mpr hall] at h
        exact Option.noConfusion h

/-- C9 witness: the Unavailable exit of clipboard_write on an environment
whose 42 open attempts all fail. -/
theorem C9_bounded_retry_witness :
    clipboard_write envWF "UTF8_STRING" [104] 1 [] =
      ([XAction.syncStatus (-1)], some (-1)) :=
  (C9_bounded_retry (fun _ => false) envWF envRF 64 "UTF8_STRING" "UTF8_STRING"
    [104] 1 [] true rfl rfl).2.2.2.1 (fun _ _ => rfl)

/-- C10: clipboard_read and read_data return through an unsigned long, so for
word width wd at least 1 the documented error exits -1 (Unavailable) and -2
(InvalidType) actually come back as the wrapped values 2 ^ wd - 1 and
2 ^ wd - 2; and a perfectly valid read whose fetched property holds
2 ^ wd - 1 items returns the very same value as the Unavailable exit, so the
codes are in principle indistinguishable from very large buffer lengths at
the C interface. -/
theorem C10_unsigned_error_codes (wd : Nat) (hw : 1 ≤ wd)
    (renv1 : ReadEnv) (typ1 : String) (b1 : Bool)
    (hr1 : renv1.libOk = true) (h1o : ∀ i, i < 42 → renv1.openOk i = false)
    (renv2 : ReadEnv) (typ2 : String) (b2 : Bool)
    (hr2 : renv2.libOk = true) (i : Nat)
    (h2o : openDisplay renv2.openOk = some i)
    (h2t : renv2.internAtom typ2 true = NoneA)
    (env : RDEnv) (sev : XSelectionEv) (sel prop target : Atom) (b : Bool)
    (hlib : env.libOk = true)
    (hP : sev.property ≠ NoneA) (hS : sev.selection = sel)
    (hPP : sev.property = prop)
    (data : List Nat) (hget : env.getProp = some (target, 2 ^ wd - 1, data)) :
    ulong wd (-1) = 2 ^ wd - 1
    ∧ ulong wd (-2) = 2 ^ wd - 2
    ∧ (clipboard_read wd renv1 typ1 b1).2 = some (none, 2 ^ wd - 1)
    ∧ (clipboard_read wd renv2 typ2 b2).2 = some (none, 2 ^ wd - 2)
    ∧ (read_data wd env sev sel prop target b).2.2 = 2 ^ wd - 1 := by
  have hm1 := ulong_neg_one wd
  have hm2 := ulong_neg_two wd hw
  refine ⟨hm1, hm2, ?_, ?_, ?_⟩
  · have hmain : clipboard_read wd renv1 typ1 b1 =
        ([], some (none, ulong wd (-1))) := by
      unfold clipboard_read
      rw [hr1, (openDisplay_none_iff _).mpr h1o, if_neg (not_not_intro rfl)]
    rw [hmain, hm1]
  · have hmain : clipboard_read wd renv2 typ2 b2 =
        ([XAction.createWindow, XAction.closeDisplay],
         some (none, ulong wd (-2))) := by
      unfold clipboard_read
      rw [hr2, h2o, if_neg (not_not_intro rfl)]
      dsimp only
      rw [if_pos h2t]
    rw [hmain, hm2]
  · have hmain : (read_data wd env sev sel prop target b).2.2 =
        (2 ^ wd - 1) % 2 ^ wd := by
      unfold read_data
      rw [hlib, if_neg (not_not_intro rfl)]
      rw [if_neg (by rintro (h | h | h); exacts [hP h, h hS, h hPP])]
      rw [hget]
    rw [hmain]
    have h1 : (1 : Nat) ≤ 2 ^ wd := Nat.one_le_two_pow
    exact Nat.mod_eq_of_lt (by omega)

/-- C10 witness: the wrapped error codes and the colliding valid length at
word width 64 on concrete environments. -/
theorem C10_unsigned_error_codes_witness :
    ulong 64 (-1) = 2 ^ 64 - 1
    ∧ ulong 64 (-2) = 2 ^ 64 - 2
    ∧ (clipboard_read 64 envRF "UTF8_STRING" true).2 = some (none, 2 ^ 64 - 1)
    ∧ (clipboard_read 64 envR2 "bogus/type" true).2 = some (none, 2 ^ 64 - 2)
    ∧ (read_data 64 envRDBig sevOk 1 6 2 true).2.2 = 2 ^ 64 - 1 :=
  C10_unsigned_error_codes 64 (by norm_num) envRF "UTF8_STRING" true rfl
    (fun _ _ => rfl) envR2 "bogus/type" true rfl 0 rfl (by decide)
    envRDBig sevOk 1 6 2 true rfl (by decide) rfl rfl [] rfl

end Clipboard
